import Mathlib

/-!
Verification of the api-check batch credential checker.

Shallow embedding of:
  - src/checkers.js        (balance checkers, handleApiError, _checkTokenTemplate,
                            apiStrategies, checkToken)
  - src/websocket_handler.js (TaskManager worker pool)
  - frontend/src/stores/checker.js (TaskOrchestrator: startCheck, processNextBatch,
                            pause/resume/stop, reconnect-on-close, result buffering)
  - frontend/src/stores/config.js / constants.js (MAX_KEYS_LIMIT)
  - frontend/src/api (categorizeTokenError)

JavaScript values appearing in upstream API bodies are modelled by the JsonVal
inductive; JS truthiness, String(), isNaN(Number()) and JSON.stringify are
modelled by executable helpers below.  Network I/O (secureProxiedFetch, the
balance fetches, the response-body JSON.parse and stream reader) is the
environment boundary and is supplied by a World record; everything on our
side of that boundary is translated from the source.
-/

/-- A JavaScript/JSON value as it appears in parsed upstream bodies. -/
inductive JsonVal where
  | null : JsonVal
  | bool (b : Bool) : JsonVal
  | num (q : ℚ) : JsonVal
  | str (s : String) : JsonVal
  | arr (xs : List JsonVal) : JsonVal
  | obj (fields : List (String × JsonVal)) : JsonVal

/-- Field access v.k on a JS value: defined only on objects (optional chaining
returns undefined, modelled as none, elsewhere). -/
def jfield : JsonVal → String → Option JsonVal
  | .obj fs, k => (fs.find? (fun p => p.fst == k)).map Prod.snd
  | _, _ => none

/-- Index access v[n] on a JS value: defined only on arrays. -/
def jidx : JsonVal → Nat → Option JsonVal
  | .arr xs, n => xs.get? n
  | _, _ => none

/-- JS truthiness of a value (NaN does not arise in parsed JSON). -/
def jsTruthy : JsonVal → Bool
  | .null => false
  | .bool b => b
  | .num q => decide (q ≠ 0)
  | .str s => decide (s ≠ "")
  | .arr _ => true
  | .obj _ => true

/-- Truthiness of an optional-chain result (undefined is falsy). -/
def optTruthy : Option JsonVal → Bool
  | some v => jsTruthy v
  | none => false

/-- Decimal display of a rational, used for String() / JSON.stringify of numbers. -/
def ratDisplay (q : ℚ) : String :=
  if q.den = 1 then toString q.num else toString q

mutual
/-- JS String(v) conversion. -/
def jsToString : JsonVal → String
  | .null => "null"
  | .bool b => if b then "true" else "false"
  | .num q => ratDisplay q
  | .str s => s
  | .arr xs => String.intercalate "," (jsArrElems xs)
  | .obj _ => "[object Object]"

/-- Array.prototype.toString renders null elements as the empty string. -/
def jsArrElems : List JsonVal → List String
  | [] => []
  | .null :: rest => "" :: jsArrElems rest
  | v :: rest => jsToString v :: jsArrElems rest
end

/-- Escape a character for a JSON string literal (quote and backslash only;
control characters do not occur in the values we manipulate). -/
def jsonEscChar (c : Char) : String :=
  if c = '"' then "\\\"" else if c = '\\' then "\\\\" else String.singleton c

mutual
/-- JSON.stringify of a value. -/
def jsonStringify : JsonVal → String
  | .null => "null"
  | .bool b => if b then "true" else "false"
  | .num q => ratDisplay q
  | .str s => "\"" ++ String.join (s.toList.map jsonEscChar) ++ "\""
  | .arr xs => "[" ++ String.intercalate "," (jsonStringifyList xs) ++ "]"
  | .obj fs => "\x7b" ++ String.intercalate "," (jsonStringifyFields fs) ++ "\x7d"

def jsonStringifyList : List JsonVal → List String
  | [] => []
  | v :: rest => jsonStringify v :: jsonStringifyList rest

def jsonStringifyFields : List (String × JsonVal) → List String
  | [] => []
  | (k, v) :: rest =>
      ("\"" ++ String.join (k.toList.map jsonEscChar) ++ "\":" ++ jsonStringify v)
        :: jsonStringifyFields rest
end

/-- Digits-only test. -/
def allDigits (l : List Char) : Bool := l.all Char.isDigit

/-- Does a character list parse as an unsigned decimal with optional fraction
and exponent (the shape Number() accepts)? -/
def numBody : List Char → Bool
  | l =>
    let (intPart, rest) := l.span Char.isDigit
    match rest with
    | [] => !intPart.isEmpty
    | '.' :: rest2 =>
      let (fracPart, rest3) := rest2.span Char.isDigit
      (!intPart.isEmpty || !fracPart.isEmpty) &&
        (match rest3 with
         | [] => true
         | 'e' :: rest4 => expoBody rest4
         | 'E' :: rest4 => expoBody rest4
         | _ => false)
    | 'e' :: rest2 => !intPart.isEmpty && expoBody rest2
    | 'E' :: rest2 => !intPart.isEmpty && expoBody rest2
    | _ => false
where
  /-- Exponent part after the letter e. -/
  expoBody : List Char → Bool
  | '+' :: ds => !ds.isEmpty && allDigits ds
  | '-' :: ds => !ds.isEmpty && allDigits ds
  | ds => !ds.isEmpty && allDigits ds

/-- Strip leading and trailing whitespace from a character list (the trim JS
applies before numeric coercion and around tokens). -/
def trimChars (l : List Char) : List Char :=
  ((l.dropWhile Char.isWhitespace).reverse.dropWhile Char.isWhitespace).reverse

/-- JS String.prototype.trim. -/
def jsTrim (s : String) : String := String.mk (trimChars s.toList)

/-- Does Number(s) yield a non-NaN number?  The empty (or blank) string coerces
to 0. -/
def strIsNumeric (s : String) : Bool :=
  let t := trimChars s.toList
  match t with
  | [] => true
  | '+' :: rest => numBody rest
  | '-' :: rest => numBody rest
  | _ => numBody t

/-- JS isNaN(v), which coerces its argument with Number(). -/
def jsIsNaN : JsonVal → Bool
  | .null => false
  | .bool _ => false
  | .num _ => false
  | .str s => !strIsNumeric s
  | .arr xs => !strIsNumeric (jsToString (.arr xs))
  | .obj _ => true

/-- isNaN on an optional-chain result (isNaN(undefined) is true, but every use
below is guarded by a truthiness test first). -/
def optIsNaN : Option JsonVal → Bool
  | some v => jsIsNaN v
  | none => true

/-- String() on an optional-chain result. -/
def jsToStringO : Option JsonVal → String
  | some v => jsToString v
  | none => "undefined"

/-- The raw error content kept in a result: the parsed JSON body, or the raw
body text when JSON.parse failed (checkers.js handleApiError). -/
inductive RawContent where
  | json (v : JsonVal) : RawContent
  | text (s : String) : RawContent

/-- Optional-chaining field access on the raw content: a plain-text body has no
properties. -/
def rcField : RawContent → String → Option JsonVal
  | .json v, k => jfield v k
  | .text _, _ => none

/-- The object handleApiError returns: a display message plus the raw error
(status and content). -/
structure ApiError where
  message : String
  status : Nat
  content : RawContent

/-- The message-selection chain of handleApiError (checkers.js lines 230-255),
applied to the HTTP status and the (parsed or raw) body. -/
def apiErrMessage (status : Nat) (content : RawContent) : String :=
  let reason := (rcField content "error").bind (jfield · "details") |>.bind (jidx · 0)
    |>.bind (jfield · "reason")
  let code := (rcField content "error").bind (jfield · "code")
  let errorMessage := (rcField content "error").bind (jfield · "message")
  let topLevelMessage := rcField content "message"
  let errorsMessage := (rcField content "errors").bind (jfield · "message")
  let detail := rcField content "detail"
  if optTruthy reason then jsToStringO reason
  else if optTruthy code && optIsNaN code then jsToStringO code
  else if optTruthy errorMessage then jsToStringO errorMessage
  else if optTruthy topLevelMessage then jsToStringO topLevelMessage
  else if optTruthy errorsMessage then jsToStringO errorsMessage
  else if optTruthy detail then
    (match detail with
     | some (.obj fs) => jsonStringify (.obj fs)
     | some (.arr xs) => jsonStringify (.arr xs)
     | some v => jsToString v
     | none => "undefined")
  else if status = 401 then "认证失败"
  else if status = 429 then "请求频繁"
  else "HTTP " ++ toString status

/-- handleApiError: the body text is kept raw when JSON.parse fails (the parse
outcome is the parsed argument, supplied by the fetch boundary). -/
def handleApiError (status : Nat) (rawText : String) (parsed : Option JsonVal) : ApiError :=
  let content : RawContent := match parsed with
    | some v => .json v
    | none => .text rawText
  { message := apiErrMessage status content, status := status, content := content }

/-- Spec-side reading of the same rules: an ordered list of optional messages,
the first defined one wins, else the fixed statuses, else the HTTP fallback.
Modelled from the spec sentence listing the derivation order. -/
def specErrRules (content : RawContent) : List (Option String) :=
  let reason := (rcField content "error").bind (jfield · "details") |>.bind (jidx · 0)
    |>.bind (jfield · "reason")
  let code := (rcField content "error").bind (jfield · "code")
  let errorMessage := (rcField content "error").bind (jfield · "message")
  let topLevelMessage := rcField content "message"
  let errorsMessage := (rcField content "errors").bind (jfield · "message")
  let detail := rcField content "detail"
  [ if optTruthy reason then some (jsToStringO reason) else none,
    if optTruthy code && optIsNaN code then some (jsToStringO code) else none,
    if optTruthy errorMessage then some (jsToStringO errorMessage) else none,
    if optTruthy topLevelMessage then some (jsToStringO topLevelMessage) else none,
    if optTruthy errorsMessage then some (jsToStringO errorsMessage) else none,
    if optTruthy detail then
      some (match detail with
            | some (.obj fs) => jsonStringify (.obj fs)
            | some (.arr xs) => jsonStringify (.arr xs)
            | some v => jsToString v
            | none => "undefined")
    else none ]

/-- Leftmost defined entry of a rule list. -/
def firstSomeStr : List (Option String) → Option String
  | [] => none
  | some s :: _ => some s
  | none :: rest => firstSomeStr rest

/-- Spec-side message derivation: first applicable rule, else fixed 401/429
messages, else the HTTP fallback. -/
def specErrMessage (status : Nat) (content : RawContent) : String :=
  match firstSomeStr (specErrRules content) with
  | some m => m
  | none =>
    if status = 401 then "认证失败"
    else if status = 429 then "请求频繁"
    else "HTTP " ++ toString status

/-- The user-side provider configuration passed into every check
(checker.js startCheck builds it; config.js holds the defaults).  Numeric
fields are optional so that the JS or-defaults (v or fallback) are modelled
faithfully: absent and 0 both fall back. -/
structure ProviderConfig where
  provider : String
  baseUrl : String
  model : String
  enableStream : Bool
  region : String
  validationPrompt : String
  validationMaxTokens : Option Nat
  validationMaxOutputTokens : Option Nat
deriving DecidableEq

/-- Static provider metadata (providers.json entry). -/
structure ProviderMeta where
  apiStyle : String
  balanceCheck : Option String
  hasBalance : Bool
deriving DecidableEq

/-- The empty metadata object passed to the retry template call
(apiStrategies.openai.onFail uses a literal empty object). -/
def emptyMeta : ProviderMeta := { apiStyle := "", balanceCheck := none, hasBalance := false }

/-- JS v or d on an optional numeric config field (0 and undefined are falsy). -/
def jsOrNat (v : Option Nat) (d : Nat) : Nat :=
  match v with
  | some n => if n = 0 then d else n
  | none => d

/-- JS s or d on a string (the empty string is falsy). -/
def jsOrStr (s d : String) : String := if s = "" then d else s

/-- normalizeBaseUrl from utils/url.js: strip trailing slashes. -/
def normalizeBaseUrl (url : String) : String :=
  String.mk (((url.toList.reverse).dropWhile (· = '/')).reverse)

/-- The JSON body of a validation request, covering the fields the four
strategies set; absent optional fields are keys deleted from / never put in
the JS object. -/
structure ReqBody where
  model : String
  prompt : String
  maxTokens : Option Nat
  maxCompletionTokens : Option Nat
  maxOutputTokens : Option Nat
  stream : Bool
deriving DecidableEq

/-- A validation request: target URL, credential placement, body. -/
structure Request where
  url : String
  authBearer : Option String
  apiKeyHeader : Option String
  body : ReqBody
deriving DecidableEq

/-- apiStrategies.openai.buildRequest. -/
def openaiBuild (token : String) (cfg : ProviderConfig) : Request :=
  { url := normalizeBaseUrl cfg.baseUrl ++ "/chat/completions",
    authBearer := some token,
    apiKeyHeader := none,
    body := { model := cfg.model,
              prompt := jsOrStr cfg.validationPrompt "Hi",
              maxTokens := some (jsOrNat cfg.validationMaxTokens 1),
              maxCompletionTokens := none,
              maxOutputTokens := none,
              stream := cfg.enableStream } }

/-- apiStrategies.openai_responses.buildRequest. -/
def responsesBuild (token : String) (cfg : ProviderConfig) : Request :=
  { url := normalizeBaseUrl cfg.baseUrl ++ "/responses",
    authBearer := some token,
    apiKeyHeader := none,
    body := { model := cfg.model,
              prompt := jsOrStr cfg.validationPrompt "You just need to reply Hi.",
              maxTokens := none,
              maxCompletionTokens := none,
              maxOutputTokens := some (jsOrNat cfg.validationMaxOutputTokens 16),
              stream := cfg.enableStream } }

/-- apiStrategies.anthropic.buildRequest. -/
def anthropicBuild (token : String) (cfg : ProviderConfig) : Request :=
  { url := normalizeBaseUrl cfg.baseUrl ++ "/messages",
    authBearer := none,
    apiKeyHeader := some token,
    body := { model := cfg.model,
              prompt := jsOrStr cfg.validationPrompt "You just need to reply Hi.",
              maxTokens := some (jsOrNat cfg.validationMaxTokens 1),
              maxCompletionTokens := none,
              maxOutputTokens := none,
              stream := cfg.enableStream } }

/-- apiStrategies.gemini.buildRequest (endpoint depends on enableStream). -/
def geminiBuild (token : String) (cfg : ProviderConfig) : Request :=
  { url := normalizeBaseUrl cfg.baseUrl ++ "/v1beta/models/" ++ cfg.model ++ ":"
             ++ (if cfg.enableStream then "streamGenerateContent" else "generateContent"),
    authBearer := none,
    apiKeyHeader := some token,
    body := { model := cfg.model,
              prompt := jsOrStr cfg.validationPrompt "You just need to reply Hi.",
              maxTokens := none,
              maxCompletionTokens := none,
              maxOutputTokens := some (jsOrNat cfg.validationMaxOutputTokens 16),
              stream := false } }

/-- Outcome of the first reader.read() on a streamed response body. -/
inductive StreamRead where
  | throwsEx : StreamRead
  | closed : StreamRead
  | chunk : StreamRead
deriving DecidableEq

/-- An HTTP response from the fetch boundary: ok is the 2xx flag, bodyJson is
the outcome of JSON.parse on bodyText (none when parsing fails), and
streamFirstRead describes the body stream. -/
structure HttpResp where
  ok : Bool
  status : Nat
  bodyText : String
  bodyJson : Option JsonVal
  streamFirstRead : StreamRead

/-- Outcome of one secureProxiedFetch call: the promise rejects (network
error) or resolves to a response. -/
inductive FetchOutcome where
  | throwsEx : FetchOutcome
  | resp (r : HttpResp) : FetchOutcome

/-- The fields a balance checker resolves with (Object.assign source).  The
successful checkers never set message; BALANCE_UNAVAILABLE sets balance and
message. -/
structure BalanceFields where
  balance : ℚ
  message : Option String
  currency : Option String
deriving DecidableEq

/-- BALANCE_UNAVAILABLE (checkers.js line 124). -/
def BALANCE_UNAVAILABLE : BalanceFields :=
  { balance := -1, message := some "有效但无法获取余额", currency := none }

/-- Outcome of awaiting a balance checker: the underlying fetch (or .json())
can reject, which propagates out of the checker; otherwise it resolves with
its fields (BALANCE_UNAVAILABLE on a non-ok balance response). -/
inductive BalanceCall where
  | throwsEx : BalanceCall
  | ret (f : BalanceFields) : BalanceCall

/-- The network environment one check runs against: the response to each
validation request, and the resolution of each named balance checker. -/
structure World where
  fetch : Request → FetchOutcome
  balance : String → BalanceCall

/-- The names present in the balanceCheckers table (checkers.js lines 130-215).
The template only invokes a checker whose name is in this table. -/
def knownCheckers : List String :=
  ["checkOpenRouterBalance", "checkSiliconFlowBalance", "checkDeepSeekBalance",
   "checkMoonshotBalance", "checkNewAPIBalance"]

/-- The raw response recorded on a successful validation. -/
inductive RawResp where
  | json (v : JsonVal) : RawResp
  | note (s : String) : RawResp

/-- A per-credential check result (the object _checkTokenTemplate returns;
order is attached later by the worker pool). -/
structure CheckResult where
  token : String
  isValid : Bool
  message : Option String
  error : Bool
  balance : Option ℚ
  currency : Option String
  rawError : Option ApiError
  rawResponse : Option RawResp

/-- Observable effects of one template run, in order. -/
inductive Effect where
  | request (r : Request) : Effect
  | streamRead : Effect
  | streamCancel : Effect
  | streamRelease : Effect
  | balanceFetch (name : String) : Effect

/-- The network-or-unknown-exception result of the template's catch-all. -/
def netErrResult (token : String) : CheckResult :=
  { token := token, isValid := false, message := some "网络错误或未知异常",
    error := true, balance := none, currency := none, rawError := none, rawResponse := none }

/-- The result for a stream that closes before yielding data. -/
def streamEndedResult (token : String) : CheckResult :=
  { token := token, isValid := false, message := some "验证失败 (流提前结束)",
    error := true, balance := none, currency := none, rawError := none, rawResponse := none }

/-- The invalid result built from a handled API error. -/
def invalidResult (token : String) (e : ApiError) : CheckResult :=
  { token := token, isValid := false, message := some e.message,
    error := true, balance := none, currency := none, rawError := some e, rawResponse := none }

/-- Object.assign of balance-checker fields onto the valid result: fields the
checker resolved with override, others are kept. -/
def mergeBalance (base : CheckResult) (f : BalanceFields) : CheckResult :=
  { base with balance := some f.balance,
              message := (f.message.orElse (fun _ => base.message)),
              currency := (f.currency.orElse (fun _ => base.currency)) }

/-- The balance-augmentation step of the ok branch: only runs when the
provider names a checker present in the table; an exception from the checker
is caught by the template's outer catch and yields the network-error result. -/
def balancePhase (w : World) (token : String) (meta : ProviderMeta)
    (base : CheckResult) (eff : List Effect) : CheckResult × List Effect :=
  match meta.balanceCheck with
  | some name =>
    if knownCheckers.contains name then
      match w.balance name with
      | .throwsEx => (netErrResult token, eff ++ [.balanceFetch name])
      | .ret f => (mergeBalance base f, eff ++ [.balanceFetch name])
    else (base, eff)
  | none => (base, eff)

/-- The effects of the streaming probe: one read, then the finally block
cancels and releases the reader on every path (checkers.js lines 283-295). -/
def streamEffects : List Effect := [.streamRead, .streamCancel, .streamRelease]

/-- The response.ok branch of _checkTokenTemplate: streaming probe or JSON
body, then balance augmentation. -/
def okBranch (w : World) (token : String) (meta : ProviderMeta)
    (cfg : ProviderConfig) (r : HttpResp) : CheckResult × List Effect :=
  if cfg.enableStream then
    match r.streamFirstRead with
    | .throwsEx => (netErrResult token, streamEffects)
    | .closed => (streamEndedResult token, streamEffects)
    | .chunk =>
      balancePhase w token meta
        { token := token, isValid := true, message := none, error := false,
          balance := none, currency := none, rawError := none,
          rawResponse := some (.note "Validation successful via streaming.") }
        streamEffects
  else
    balancePhase w token meta
      { token := token, isValid := true, message := none, error := false,
        balance := none, currency := none, rawError := none,
        rawResponse := some (match r.bodyJson with
                             | some v => .json v
                             | none => .note "Failed to parse JSON response.") }
      []

/-- _checkTokenTemplate for a strategy without an onFail hook (all strategies
except openai, and the retry strategy the openai hook builds). -/
def runTemplateNR (w : World) (token : String) (meta : ProviderMeta)
    (cfg : ProviderConfig) (req : Request) : CheckResult × List Effect :=
  match w.fetch req with
  | .throwsEx => (netErrResult token, [.request req])
  | .resp r =>
    if r.ok then
      let (res, eff) := okBranch w token meta cfg r
      (res, .request req :: eff)
    else
      (invalidResult token (handleApiError r.status r.bodyText r.bodyJson), [.request req])

/-- Strict-equality test of an optional JS value against a string literal. -/
def isStrEq (o : Option JsonVal) (s : String) : Bool :=
  match o with
  | some (.str t) => t == s
  | _ => false

/-- apiStrategies.openai.onFail minus the recursive template call: when the
error body carries code unsupported_parameter for param max_tokens, rebuild
the request with max_tokens deleted and max_completion_tokens substituted;
otherwise no retry. -/
def openaiOnFail (token : String) (cfg : ProviderConfig) (e : ApiError) : Option Request :=
  if isStrEq ((rcField e.content "error").bind (jfield · "code")) "unsupported_parameter"
      && isStrEq ((rcField e.content "error").bind (jfield · "param")) "max_tokens" then
    let base := openaiBuild token cfg
    let newBody : ReqBody :=
      { base.body with
        maxTokens := none,
        maxCompletionTokens := some (jsOrNat cfg.validationMaxOutputTokens 16) }
    some { base with body := newBody }
  else none

/-- _checkTokenTemplate for the openai strategy: on a non-ok response the
onFail hook may produce exactly one retry, which runs the template with the
rebuilt request, an empty providerMeta and a strategy that has no onFail. -/
def runOpenai (w : World) (token : String) (meta : ProviderMeta)
    (cfg : ProviderConfig) : CheckResult × List Effect :=
  let req := openaiBuild token cfg
  match w.fetch req with
  | .throwsEx => (netErrResult token, [.request req])
  | .resp r =>
    if r.ok then
      let (res, eff) := okBranch w token meta cfg r
      (res, .request req :: eff)
    else
      let e := handleApiError r.status r.bodyText r.bodyJson
      match openaiOnFail token cfg e with
      | some retryReq =>
        let (res, eff) := runTemplateNR w token emptyMeta cfg retryReq
        (res, .request req :: eff)
      | none => (invalidResult token e, [.request req])

/-- checkToken: dispatch on providerMeta.apiStyle (checkers.js lines 426-445). -/
def checkToken (w : World) (token : String) (meta : ProviderMeta)
    (cfg : ProviderConfig) : CheckResult × List Effect :=
  if meta.apiStyle = "openai" then runOpenai w token meta cfg
  else if meta.apiStyle = "openai_responses" then
    runTemplateNR w token meta cfg (responsesBuild token cfg)
  else if meta.apiStyle = "anthropic" then
    runTemplateNR w token meta cfg (anthropicBuild token cfg)
  else if meta.apiStyle = "gemini" then
    runTemplateNR w token meta cfg (geminiBuild token cfg)
  else
    ({ token := token, isValid := false, message := some "不支持的提供商类型",
       error := true, balance := none, currency := none, rawError := none,
       rawResponse := none }, [])

/-- The requests issued during a template run, in order. -/
def requestsOf : List Effect → List Request
  | [] => []
  | .request r :: rest => r :: requestsOf rest
  | _ :: rest => requestsOf rest

/-- How many stream reads a trace performs. -/
def streamReadCount : List Effect → Nat
  | [] => 0
  | .streamRead :: rest => streamReadCount rest + 1
  | _ :: rest => streamReadCount rest

/-- Outcome of the balance-endpoint fetch inside one balance checker. -/
inductive BalanceResp where
  | throwsEx : BalanceResp
  | resp (ok : Bool) (body : JsonVal) : BalanceResp

/-- parseFloat(v) or -1 in JS: NaN (unparseable) and 0 are both falsy and fall
back to -1; only the numeric JSON case matters for the data our model feeds it. -/
def jsParseFloatOrNegOne : Option JsonVal → ℚ
  | some (.num q) => if q = 0 then -1 else q
  | _ => -1

/-- checkMoonshotBalance (checkers.js lines 180-190): on an ok response read
data.available_balance, else resolve with BALANCE_UNAVAILABLE; a rejected
fetch propagates. -/
def checkMoonshotBalance : BalanceResp → BalanceCall
  | .throwsEx => .throwsEx
  | .resp ok body =>
    if ok then
      .ret { balance := jsParseFloatOrNegOne ((jfield body "data").bind (jfield · "available_balance")),
             message := none, currency := none }
    else .ret BALANCE_UNAVAILABLE

/-- Lowercasing as used by categorizeTokenError. -/
def strLower (s : String) : String := String.mk (s.toList.map Char.toLower)

/-- Is pat a prefix of s (character lists)? -/
def charsHasPfx : List Char → List Char → Bool
  | [], _ => true
  | _ :: _, [] => false
  | a :: as, b :: bs => a == b && charsHasPfx as bs

/-- Does s contain pat as a contiguous substring (character lists)? -/
def charsHasSub (pat : List Char) : List Char → Bool
  | [] => pat.isEmpty
  | b :: bs => charsHasPfx pat (b :: bs) || charsHasSub pat bs

/-- JS String.prototype.includes. -/
def strIncludes (s pat : String) : Bool := charsHasSub pat.toList s.toList

/-- JS a or b on optional-chained values (first truthy wins, else the second). -/
def jsOrVal (a b : Option JsonVal) : Option JsonVal :=
  if optTruthy a then a else b

/-- JSON.stringify of a result's rawError object (shape: status and content). -/
def stringifyRawError (e : ApiError) : String :=
  jsonStringify (.obj [("status", .num (e.status : ℚ)),
                       ("content", match e.content with
                                   | .json v => v
                                   | .text s => .str s)])

/-- The category-plus-message pair categorizeTokenError returns. -/
structure Categorized where
  category : String
  simpleMessage : String
deriving DecidableEq

/-- The quota keyword list (api/index.js line 68). -/
def quotaKeywords : List String :=
  ["insufficient", "credit", "quota", "balance", "billing", "paid", "top up"]

/-- categorizeTokenError (frontend api, lines 42-89), over the result fields it
reads: isValid, message and rawError. -/
def categorizeTokenError (res : CheckResult) : Categorized :=
  if res.isValid then { category := "valid", simpleMessage := "有效" }
  else
    let status : Nat := match res.rawError with
      | some e => e.status
      | none => 0
    let lowerCaseMessage : String := strLower
      (match res.message with
       | some m => if m = "" then
           (match res.rawError with
            | some e => stringifyRawError e
            | none => "")
         else m
       | none => match res.rawError with
         | some e => stringifyRawError e
         | none => "")
    let content : RawContent := match res.rawError with
      | some e => e.content
      | none => .json (.obj [])
    let errorCode := jsOrVal ((rcField content "error").bind (jfield · "code"))
                             (rcField content "code")
    let errorType := jsOrVal ((rcField content "error").bind (jfield · "type"))
                             (rcField content "type")
    if status = 401 || isStrEq errorCode "invalid_api_key" || isStrEq errorType "invalid_api_key" then
      { category := "invalid", simpleMessage := "API_KEY 无效" }
    else if isStrEq errorType "access_terminated" then
      { category := "invalid", simpleMessage := "账户已被封禁或停用" }
    else if status = 402 then
      { category := "noQuota", simpleMessage := "额度不足 (Payment Required)" }
    else if isStrEq errorCode "insufficient_quota" || isStrEq errorType "insufficient_quota" then
      { category := "noQuota", simpleMessage := "额度已耗尽或超出配额" }
    else if strIncludes lowerCaseMessage "doesn\x27t have a free quota tier" then
      { category := "noQuota", simpleMessage := "该模型没有免费额度" }
    else if quotaKeywords.any (fun kw => strIncludes lowerCaseMessage kw) then
      { category := "noQuota", simpleMessage := "额度/余额不足" }
    else if status = 429 then
      { category := "rateLimit", simpleMessage := "请求频繁 (Rate Limit)" }
    else if strIncludes lowerCaseMessage "location is not supported" then
      { category := "invalid", simpleMessage := "区域不支持" }
    else if strIncludes lowerCaseMessage "permissiondenied" then
      { category := "invalid", simpleMessage := "API未在项目中启用" }
    else if isStrEq errorCode "model_not_found" || strIncludes lowerCaseMessage "model is not supported" then
      { category := "invalid", simpleMessage := "模型不存在或不可用" }
    else if status = 403 then
      { category := "invalid", simpleMessage := "访问被拒绝 (Forbidden)" }
    else
      { category := "invalid", simpleMessage := "验证失败" }

/-- The finalCategory assignment of processResult (checker.js lines 231-245):
the categorizer's category, overridden for valid results of a balance-capable
provider by the zero/low/valid balance rule.  A result without a balance field
satisfies neither comparison and falls to valid. -/
def processResultFinalCategory (res : CheckResult) (hasBalance : Bool) (threshold : ℚ) : String :=
  let base := (categorizeTokenError res).category
  if res.isValid && hasBalance then
    match res.balance with
    | some b => if b = 0 then "zeroBalance" else if b < threshold then "lowBalance" else "valid"
    | none => "valid"
  else base

/-- A credential with its immutable input position (checker.js startCheck). -/
structure KeyObj where
  token : String
  order : Nat
deriving DecidableEq

/-- BATCH_SIZE (checker.js line 11). -/
def BATCH_SIZE : Nat := 500

/-- MAX_RECONNECT_ATTEMPTS (checker.js line 41). -/
def MAX_RECONNECT_ATTEMPTS : Nat := 3

/-- BUFFER_MAX_SIZE (checker.js line 60). -/
def BUFFER_MAX_SIZE : Nat := 50

/-- MAX_KEYS_LIMIT (frontend constants.js line 107). -/
def MAX_KEYS_LIMIT : Nat := 50000

/-- One WebSocket session as the orchestrator's environment sees it: the
server will deliver one result per unsent item and then a done message; a
client- or server-side close stops delivery.  handlerActive records whether
the client onclose handler is still attached (pause and stop null it out for
the socket they close). -/
structure Session where
  sid : Nat
  unsent : List KeyObj
  srvStopped : Bool
  isOpen : Bool
  handlerActive : Bool
deriving DecidableEq

/-- The orchestrator's state (checker.js store): the flags, the in-memory job
queue, the tracked current batch, the reconnect counter, the live sessions
(socket.value is the one named by socketId; stale sockets keep their
handlers), the result buffer and the result store (orders only; the store's
per-category split does not matter for counting), and the pending timers that
setTimeout created and nothing ever cancels.  finished marks that finishCheck
ran; fatalAborted marks the reconnect-exhausted error status. -/
structure OrchState where
  isChecking : Bool
  isPaused : Bool
  jobQueue : Option (List KeyObj)
  currentBatch : Option (List KeyObj)
  reconnectAttempts : Nat
  sessions : List Session
  socketId : Option Nat
  nextSid : Nat
  completedCount : Nat
  totalTasks : Nat
  buffer : List Nat
  stored : List Nat
  pendingDispatch : Nat
  pendingReconnects : List Nat
  finished : Bool
  fatalAborted : Bool
deriving DecidableEq

/-- The idle initial state. -/
def initOrch : OrchState :=
  { isChecking := false, isPaused := false, jobQueue := none, currentBatch := none,
    reconnectAttempts := 0, sessions := [], socketId := none, nextSid := 0,
    completedCount := 0, totalTasks := 0, buffer := [], stored := [],
    pendingDispatch := 0, pendingReconnects := [], finished := false,
    fatalAborted := false }

/-- flushResultBuffer: append the buffer to the store and clear it. -/
def flushBuffer (s : OrchState) : OrchState :=
  { s with buffer := [], stored := s.stored ++ s.buffer }

/-- bufferResult: push, and flush immediately at BUFFER_MAX_SIZE. -/
def bufferAdd (s : OrchState) (o : Nat) : OrchState :=
  let b := s.buffer ++ [o]
  if BUFFER_MAX_SIZE ≤ b.length then { s with buffer := [], stored := s.stored ++ b }
  else { s with buffer := b }

/-- Update one session by id. -/
def updSession (sid : Nat) (f : Session → Session) (s : OrchState) : OrchState :=
  { s with sessions := s.sessions.map (fun t => if t.sid = sid then f t else t) }

/-- Close a session (transport closed; its server stops sending). -/
def closeSession (sid : Nat) (s : OrchState) : OrchState :=
  updSession sid (fun t => { t with isOpen := false, srvStopped := true }) s

/-- Detach the onclose handler of a session (socket.value.onclose = null). -/
def detachHandler (sid : Nat) (s : OrchState) : OrchState :=
  updSession sid (fun t => { t with handlerActive := false }) s

/-- Open a new WebSocket session for a batch (connectWebSocket plus the server
side accepting the start command): socket.value now names the new session;
any previous socket keeps its listeners but is no longer named. -/
def connectSession (s : OrchState) (batch : List KeyObj) : OrchState :=
  let fresh : Session :=
    { sid := s.nextSid, unsent := batch, srvStopped := false,
      isOpen := true, handlerActive := true }
  { s with sessions := s.sessions ++ [fresh],
           socketId := some s.nextSid,
           nextSid := s.nextSid + 1 }

/-- finishCheck: flush the buffer, clear the run state, post the summary. -/
def finishCheck (s : OrchState) : OrchState :=
  let s1 := flushBuffer s
  { s1 with isChecking := false, jobQueue := none, currentBatch := none, finished := true }

/-- processNextBatch (checker.js lines 83-108): nothing while paused; reset
the reconnect counter; finish when the queue is gone or empty; otherwise
slice off a batch, remember it for reconnects, and open a session for it. -/
def processNextBatch (s : OrchState) : OrchState :=
  if s.isPaused then s
  else
    let s1 := { s with reconnectAttempts := 0 }
    match s1.jobQueue with
    | none => finishCheck s1
    | some rem =>
      if rem.isEmpty then finishCheck s1
      else
        let batch := rem.take BATCH_SIZE
        let rest := rem.drop BATCH_SIZE
        connectSession { s1 with currentBatch := some batch, jobQueue := some rest } batch

/-- stopCheck (checker.js lines 378-393). -/
def stopCheck (s : OrchState) : OrchState :=
  let s1 := flushBuffer s
  let s2 := { s1 with isChecking := false, isPaused := false,
                      jobQueue := none, currentBatch := none }
  match s2.socketId with
  | some j => { closeSession j (detachHandler j s2) with socketId := none }
  | none => s2

/-- The body of the onclose handler for an abnormal (non-1000) close
(checker.js lines 161-178), after the socket itself has closed: while
checking and not paused, retry the current batch with the attempt-numbered
backoff while under the limit, else post a fatal error and stop the run.
The scheduled timer is recorded with its delay in seconds (1000 * attempts
milliseconds after the increment). -/
def oncloseBody (s : OrchState) : OrchState :=
  if s.isChecking && !s.isPaused then
    if s.reconnectAttempts < MAX_RECONNECT_ATTEMPTS
        && (match s.currentBatch with
            | some cb => decide (0 < cb.length)
            | none => false) then
      { s with reconnectAttempts := s.reconnectAttempts + 1,
               pendingReconnects := s.pendingReconnects ++ [s.reconnectAttempts + 1] }
    else
      { stopCheck s with fatalAborted := true }
  else s

/-- The environment and timer events an orchestrator run interleaves. -/
inductive OEvent where
  /-- The server of a session delivers the result for one of its unsent keys. -/
  | serverResult (sid : Nat) (k : KeyObj) : OEvent
  /-- The server of a session has sent every result and sends done. -/
  | serverDone (sid : Nat) : OEvent
  /-- A scheduled setTimeout(processNextBatch, 100) fires. -/
  | dispatchFire : OEvent
  /-- A scheduled reconnect timer fires. -/
  | reconnectFire : OEvent
  /-- The transport of a session closes abnormally (code other than 1000). -/
  | abnormalClose (sid : Nat) : OEvent
  /-- The user pauses. -/
  | pause : OEvent
  /-- The user resumes. -/
  | resume : OEvent
  /-- The user stops. -/
  | stop : OEvent
  /-- The 100 ms buffer-flush timer fires. -/
  | flushTimer : OEvent
deriving DecidableEq

/-- Look up a session. -/
def findSession (s : OrchState) (sid : Nat) : Option Session :=
  s.sessions.find? (fun t => t.sid = sid)

/-- One orchestrator step.  Events whose guard fails (a message on a closed
socket, a timer with nothing pending, pause while not checking, ...) leave
the state unchanged. -/
def stepO (s : OrchState) : OEvent → OrchState
  | .serverResult sid k =>
    match findSession s sid with
    | some t =>
      if t.isOpen && !t.srvStopped && t.unsent.contains k then
        -- the worker pool sends this key's result once; onmessage runs
        -- processResult (count, categorize, buffer) and filters currentBatch
        let s1 := updSession sid (fun u => { u with unsent := u.unsent.erase k }) s
        let s2 := bufferAdd { s1 with completedCount := s1.completedCount + 1 } k.order
        { s2 with currentBatch :=
            s2.currentBatch.map (fun cb => cb.filter (fun x => x.order != k.order)) }
      else s
    | none => s
  | .serverDone sid =>
    match findSession s sid with
    | some t =>
      if t.isOpen && !t.srvStopped && t.unsent.isEmpty then
        -- onmessage done branch: drop the batch cache, close socket.value,
        -- schedule processNextBatch; the session's own server close follows
        -- with code 1000 and its handler does nothing
        let s1 := { s with currentBatch := none }
        let s2 := match s1.socketId with
          | some j => { closeSession j s1 with pendingDispatch := s1.pendingDispatch + 1 }
          | none => s1
        closeSession sid s2
      else s
    | none => s
  | .dispatchFire =>
    if s.pendingDispatch = 0 then s
    else processNextBatch { s with pendingDispatch := s.pendingDispatch - 1 }
  | .reconnectFire =>
    match s.pendingReconnects with
    | [] => s
    | _ :: rest =>
      let s1 := { s with pendingReconnects := rest }
      if s1.isChecking && !s1.isPaused then
        match s1.currentBatch with
        | some cb => connectSession s1 cb
        | none => s1
      else s1
  | .abnormalClose sid =>
    match findSession s sid with
    | some t =>
      if t.isOpen then
        let s1 := closeSession sid s
        if t.handlerActive then oncloseBody s1 else s1
      else s
    | none => s
  | .pause =>
    if s.isChecking && !s.isPaused then
      let s1 := flushBuffer s
      let s2 := { s1 with isPaused := true }
      let s3 := match s2.currentBatch, s2.jobQueue with
        | some cb, some rem =>
          if 0 < cb.length then { s2 with jobQueue := some (cb ++ rem) } else s2
        | _, _ => s2
      let s4 := match s3.socketId with
        | some j => { closeSession j (detachHandler j s3) with socketId := none }
        | none => s3
      { s4 with currentBatch := none }
    else s
  | .resume =>
    if s.isChecking && s.isPaused then processNextBatch { s with isPaused := false }
    else s
  | .stop => stopCheck s
  | .flushTimer => flushBuffer s

/-- Run a list of events. -/
def runO (s : OrchState) : List OEvent → OrchState
  | [] => s
  | e :: rest => runO (stepO s e) rest

/-- The duplicate-filtering pass of startCheck (checker.js lines 321-334):
fold over the enumerated keys with the set of seen tokens, keeping first
occurrences in order and turning every later occurrence into a duplicate
record carrying its own order. -/
def dedupScan (seen : List String) : List KeyObj → List KeyObj × List (String × Nat)
  | [] => ([], [])
  | k :: rest =>
    if k.token ∈ seen then
      let (ks, ds) := dedupScan seen rest
      (ks, (k.token, k.order) :: ds)
    else
      let (ks, ds) := dedupScan (k.token :: seen) rest
      (k :: ks, ds)

/-- allKeys: attach input positions (tokensRaw.map((token, index) => ...)). -/
def enumFrom (i : Nat) : List String → List KeyObj
  | [] => []
  | t :: ts => ⟨t, i⟩ :: enumFrom (i + 1) ts

/-- Deduplicate a raw token list into the keys to process and the duplicate
results. -/
def dedupKeys (raw : List String) : List KeyObj × List (String × Nat) :=
  dedupScan [] (enumFrom 0 raw)

/-- startCheck after input splitting (checker.js lines 302-373), as a function
of the raw token list: clear the old queue and results, reject over the key
ceiling, emit duplicate results immediately, and when keys remain start the
run and process the first batch. -/
def startCheckRaw (raw : List String) (s : OrchState) : OrchState :=
  let s1 := { s with jobQueue := none, stored := [], completedCount := 0 }
  if MAX_KEYS_LIMIT < raw.length then s1
  else
    let (keep, dups) := dedupKeys raw
    let s2 := if dups.isEmpty then s1
              else { s1 with stored := s1.stored ++ dups.map Prod.snd }
    if keep.isEmpty then s2
    else
      let s3 := { s2 with isChecking := true, isPaused := false,
                          totalTasks := keep.length, jobQueue := some keep }
      processNextBatch s3

/-- Split a character list at every separator character. -/
def splitSepsAux (cur : List Char) : List Char → List String
  | [] => [String.mk cur.reverse]
  | c :: rest =>
    if c = ',' || c = ';' || c = '\n' || c = '\r' then
      String.mk cur.reverse :: splitSepsAux [] rest
    else splitSepsAux (c :: cur) rest

/-- tokensRaw: trim, split on run separators, trim the pieces, drop empties
(checker.js line 313).  Splitting at every separator character and filtering
empties equals splitting at separator runs. -/
def tokensRawOf (input : String) : List String :=
  ((splitSepsAux [] (jsTrim input).toList).map jsTrim).filter (fun t => t ≠ "")

/-- startCheck from the raw textarea input: empty (after trimming) input only
posts a warning. -/
def startCheckStr (input : String) (s : OrchState) : OrchState :=
  if jsTrim input = "" then s else startCheckRaw (tokensRawOf input) s

/-- The TaskManager worker-pool state (websocket_handler.js lines 8-110): the
immutable queue for the batch, the shared claim cursor, the stop flag, worker
liveness, the claims made (worker, queue index), the results sent in order,
and how many times the done signal was emitted. -/
structure PoolState where
  queue : List KeyObj
  currentIndex : Nat
  isStopped : Bool
  alive : List Bool
  claims : List (Nat × Nat)
  sent : List KeyObj
  doneCount : Nat
deriving DecidableEq

/-- The pool after start: concurrency workers entered their loops, cursor at
0, nothing claimed. -/
def initPool (q : List KeyObj) (concurrency : Nat) : PoolState :=
  { queue := q, currentIndex := 0, isStopped := false,
    alive := List.replicate concurrency true, claims := [], sent := [],
    doneCount := 0 }

/-- Number of workers still in their loops. -/
def aliveCount (s : PoolState) : Nat := s.alive.count true

/-- Scheduler events for one pool run.  The claim step is getNextItem plus the
awaited runCheck whose result the callback sends; the cursor increment is the
single atomic (synchronous) operation.  A worker exits its loop when it
observes the stop flag or an exhausted cursor; when the last one exits,
Promise.all resolves and the done signal is sent unless stopped. -/
inductive PEvent where
  | claim (w : Nat) : PEvent
  | exitW (w : Nat) : PEvent
  | stop : PEvent
deriving DecidableEq

/-- One scheduler step of the worker pool. -/
def stepP (s : PoolState) : PEvent → PoolState
  | .claim w =>
    if s.alive.getD w false && !s.isStopped && s.currentIndex < s.queue.length then
      { s with currentIndex := s.currentIndex + 1,
               claims := s.claims ++ [(w, s.currentIndex)],
               sent := s.sent ++ (s.queue.get? s.currentIndex).toList }
    else s
  | .exitW w =>
    if s.alive.getD w false && (s.isStopped || ¬ s.currentIndex < s.queue.length) then
      let s1 := { s with alive := s.alive.set w false }
      if aliveCount s1 = 0 && !s1.isStopped then { s1 with doneCount := s1.doneCount + 1 }
      else s1
    else s
  | .stop => { s with isStopped := true }

/-- Run a list of pool events. -/
def runP (s : PoolState) : List PEvent → PoolState
  | [] => s
  | e :: rest => runP (stepP s e) rest

/-! Theorems.  Each claim theorem is preceded by its claim id. -/

/-- A first-applicable chain of six rules equals the first defined entry of
the corresponding rule list, with a shared fallback. -/
theorem chainSix (b1 b2 b3 b4 b5 b6 : Bool) (m1 m2 m3 m4 m5 m6 dflt : String) :
    (if b1 then m1 else if b2 then m2 else if b3 then m3 else if b4 then m4
     else if b5 then m5 else if b6 then m6 else dflt)
    = (match firstSomeStr [if b1 then some m1 else none, if b2 then some m2 else none,
        if b3 then some m3 else none, if b4 then some m4 else none,
        if b5 then some m5 else none, if b6 then some m6 else none] with
       | some m => m
       | none => dflt) := by
  cases b1 <;> cases b2 <;> cases b3 <;> cases b4 <;> cases b5 <;> cases b6 <;>
    simp [firstSomeStr]

/-- The code's message chain coincides with the spec-ordered rule list. -/
theorem apiErrMessage_eq_spec (status : Nat) (c : RawContent) :
    apiErrMessage status c = specErrMessage status c := by
  simp only [apiErrMessage, specErrMessage, specErrRules]
  exact chainSix _ _ _ _ _ _ _ _ _ _ _ _ _

/-- Claim C6: for every non-2xx upstream response, handleApiError derives the
message by the first applicable rule in the fixed order: nested error-detail
reason, non-numeric error.code, error.message, top-level message,
errors.message, detail (JSON-stringified when it is an object or array), else
the fixed 401 message, else the fixed 429 message, else the HTTP-status
fallback; and a body that fails JSON parsing is kept as raw text while a
parsed body is kept as parsed JSON. -/
theorem handleApiError_message_order :
    ∀ (status : Nat) (rawText : String) (parsed : Option JsonVal),
      ((handleApiError status rawText parsed).message
        = specErrMessage status (handleApiError status rawText parsed).content)
      ∧ (handleApiError status rawText none).content = RawContent.text rawText
      ∧ (∀ v : JsonVal, (handleApiError status rawText (some v)).content = RawContent.json v) := by
  intro status rawText parsed
  refine ⟨?_, rfl, fun v => rfl⟩
  cases parsed with
  | none => exact apiErrMessage_eq_spec status (RawContent.text rawText)
  | some v => exact apiErrMessage_eq_spec status (RawContent.json v)

/-- The dedup scan keeps exactly the keys whose token does not occur earlier
in the input, and turns exactly the keys whose token does occur earlier into
duplicate records carrying their own order. -/
theorem dedupScan_charact :
    ∀ (suffix : List String) (i : Nat) (seen : List String) (full : List String),
      full.drop i = suffix →
      (∀ t : String, t ∈ seen ↔ t ∈ full.take i) →
      dedupScan seen (enumFrom i suffix)
        = ((enumFrom i suffix).filter (fun k => !decide (k.token ∈ full.take k.order)),
           ((enumFrom i suffix).filter (fun k => decide (k.token ∈ full.take k.order))).map
             (fun k => (k.token, k.order))) := by
  intro suffix
  induction suffix with
  | nil => intro i seen full _ _; simp [dedupScan, enumFrom]
  | cons t rest ih =>
    intro i seen full hdrop hseen
    have htake : full.take (i + 1) = full.take i ++ [t] := by
      rw [List.take_add, hdrop]
      rfl
    have hdrop' : full.drop (i + 1) = rest := by
      have h2 : full.drop (i + 1) = (full.drop i).drop 1 := by
        rw [List.drop_drop]
      rw [h2, hdrop]
      rfl
    have hheadmem : (t ∈ seen) ↔ (t ∈ full.take i) := hseen t
    simp only [enumFrom, dedupScan]
    by_cases hmem : t ∈ seen
    · have hfull : t ∈ full.take i := hheadmem.mp hmem
      have hseen' : ∀ u : String, u ∈ seen ↔ u ∈ full.take (i + 1) := by
        intro u
        rw [htake]
        have h3 := hseen u
        have h4 : u = t → u ∈ full.take i := fun h => h ▸ hfull
        simp only [List.mem_append, List.mem_singleton]
        tauto
      rw [if_pos hmem, ih (i + 1) seen full hdrop' hseen']
      simp [List.filter_cons, hfull]
    · have hfull : t ∉ full.take i := fun h => hmem (hheadmem.mpr h)
      have hseen' : ∀ u : String, u ∈ (t :: seen) ↔ u ∈ full.take (i + 1) := by
        intro u
        rw [htake]
        have h3 := hseen u
        simp only [List.mem_append, List.mem_singleton, List.mem_cons]
        tauto
      rw [if_neg hmem, ih (i + 1) (t :: seen) full hdrop' hseen']
      simp [List.filter_cons, hfull]

/-- Claim C7: startCheck deduplicates on token before any batch is formed:
for every raw input the kept keys are exactly the first occurrences with
their original orders, and every later occurrence becomes a duplicate record
carrying that occurrence's order; in particular for k1,k1,k2 the duplicate
results are exactly one record with order 1, it is stored immediately by
startCheck (before any session exists for it), and the session opened for the
first batch contains exactly the two first occurrences. -/
theorem startCheck_dedup_firstOccurrence :
    ∀ raw : List String,
      (dedupKeys raw
        = ((enumFrom 0 raw).filter (fun k => !decide (k.token ∈ raw.take k.order)),
           ((enumFrom 0 raw).filter (fun k => decide (k.token ∈ raw.take k.order))).map
             (fun k => (k.token, k.order))))
      ∧ dedupKeys ["k1", "k1", "k2"] = ([⟨"k1", 0⟩, ⟨"k2", 2⟩], [("k1", 1)])
      ∧ (startCheckRaw ["k1", "k1", "k2"] initOrch).stored = [1]
      ∧ findSession (startCheckRaw ["k1", "k1", "k2"] initOrch) 0
          = some { sid := 0, unsent := [⟨"k1", 0⟩, ⟨"k2", 2⟩], srvStopped := false,
                   isOpen := true, handlerActive := true }
      ∧ (startCheckRaw ["k1", "k1", "k2"] initOrch).currentBatch
          = some [⟨"k1", 0⟩, ⟨"k2", 2⟩] := by
  intro raw
  refine ⟨?_, by decide, by decide, by decide, by decide⟩
  have h := dedupScan_charact raw 0 [] raw rfl (by simp)
  simpa [dedupKeys] using h

/-- Claim C10: for every result with isValid true processed while the current
provider has balance support, processResult assigns finalCategory by: balance
0 gives zeroBalance, otherwise balance below the threshold gives lowBalance,
otherwise valid; consequently a valid credential whose balance check failed
(balance -1) is categorized lowBalance, not valid, whenever the threshold
exceeds -1. -/
theorem processResult_balance_category :
    ∀ (res : CheckResult) (threshold : ℚ),
      res.isValid = true →
      ((res.balance = some 0 → processResultFinalCategory res true threshold = "zeroBalance")
      ∧ (∀ b : ℚ, res.balance = some b → b ≠ 0 → b < threshold →
          processResultFinalCategory res true threshold = "lowBalance")
      ∧ (∀ b : ℚ, res.balance = some b → b ≠ 0 → threshold ≤ b →
          processResultFinalCategory res true threshold = "valid")
      ∧ (res.balance = some (-1) → -1 < threshold →
          processResultFinalCategory res true threshold = "lowBalance")) := by
  intro res threshold hvalid
  refine ⟨?_, ?_, ?_, ?_⟩
  · intro hb
    simp [processResultFinalCategory, hvalid, hb]
  · intro b hb hnz hlt
    simp [processResultFinalCategory, hvalid, hb, hnz, hlt]
  · intro b hb hnz hge
    simp [processResultFinalCategory, hvalid, hb, hnz, not_lt.mpr hge]
  · intro hb hlt
    have hnz : (-1 : ℚ) ≠ 0 := by norm_num
    simp [processResultFinalCategory, hvalid, hb, hnz, hlt]

/-- Witness for C10: a concrete valid result carrying the balance -1 sentinel
under the default threshold 1 lands in lowBalance. -/
theorem processResult_balance_category_witness :
    processResultFinalCategory
      { token := "sk-w", isValid := true, message := some "有效但无法获取余额",
        error := false, balance := some (-1), currency := none,
        rawError := none, rawResponse := none } true 1 = "lowBalance" :=
  (processResult_balance_category
    { token := "sk-w", isValid := true, message := some "有效但无法获取余额",
      error := false, balance := some (-1), currency := none,
      rawError := none, rawResponse := none } 1 rfl).2.2.2 rfl (by norm_num)

/-- requestsOf distributes over append. -/
theorem requestsOf_append (a b : List Effect) :
    requestsOf (a ++ b) = requestsOf a ++ requestsOf b := by
  induction a with
  | nil => rfl
  | cons e rest ih => cases e <;> simp [requestsOf, ih]

/-- The balance phase issues no validation request. -/
theorem balancePhase_requests (w : World) (token : String) (meta : ProviderMeta)
    (base : CheckResult) (eff : List Effect) :
    requestsOf (balancePhase w token meta base eff).2 = requestsOf eff := by
  unfold balancePhase
  rcases meta.balanceCheck with _ | name
  · rfl
  · by_cases h : name ∈ knownCheckers
    · rcases hb : w.balance name with _ | f <;>
        simp [h, hb, requestsOf_append, requestsOf]
    · simp [h]

/-- The ok branch issues no validation request. -/
theorem okBranch_no_requests (w : World) (token : String) (meta : ProviderMeta)
    (cfg : ProviderConfig) (r : HttpResp) :
    requestsOf (okBranch w token meta cfg r).2 = [] := by
  unfold okBranch
  cases hs : cfg.enableStream
  · simp only [hs, Bool.false_eq_true, if_false]
    rw [balancePhase_requests]
    rfl
  · simp only [hs, if_true]
    cases r.streamFirstRead
    · rfl
    · rfl
    · rw [balancePhase_requests]
      rfl

/-- A template run without an onFail hook issues exactly its one request, no
matter how the upstream responds. -/
theorem requestsOf_runTemplateNR (w : World) (token : String) (meta : ProviderMeta)
    (cfg : ProviderConfig) (req : Request) :
    requestsOf (runTemplateNR w token meta cfg req).2 = [req] := by
  unfold runTemplateNR
  rcases hf : w.fetch req with _ | r
  · simp [requestsOf]
  · by_cases hok : r.ok
    · rcases hE : okBranch w token meta cfg r with ⟨res, eff⟩
      have h := okBranch_no_requests w token meta cfg r
      rw [hE] at h
      simp [hok, hE, requestsOf, h]
    · simp [hok, requestsOf]

/-- A 2xx response reduces the hook-free template to the ok branch. -/
theorem runTemplateNR_ok (w : World) (token : String) (meta : ProviderMeta)
    (cfg : ProviderConfig) (req : Request) (r : HttpResp)
    (hfetch : w.fetch req = .resp r) (hok : r.ok = true) :
    runTemplateNR w token meta cfg req
      = ((okBranch w token meta cfg r).1, .request req :: (okBranch w token meta cfg r).2) := by
  unfold runTemplateNR
  rw [hfetch]
  rcases hE : okBranch w token meta cfg r with ⟨res, eff⟩
  simp [hok, hE]

/-- A 2xx response reduces the openai template to the same ok branch. -/
theorem runOpenai_ok (w : World) (token : String) (meta : ProviderMeta)
    (cfg : ProviderConfig) (r : HttpResp)
    (hfetch : w.fetch (openaiBuild token cfg) = .resp r) (hok : r.ok = true) :
    runOpenai w token meta cfg
      = ((okBranch w token meta cfg r).1,
         .request (openaiBuild token cfg) :: (okBranch w token meta cfg r).2) := by
  simp only [runOpenai, hfetch]
  rcases hE : okBranch w token meta cfg r with ⟨res, eff⟩
  simp [hok, hE]

/-- A non-2xx response whose body matches the onFail condition reduces the
openai template to the retried hook-free run. -/
theorem runOpenai_fail_retry (w : World) (token : String) (meta : ProviderMeta)
    (cfg : ProviderConfig) (r : HttpResp) (rq : Request)
    (hfetch : w.fetch (openaiBuild token cfg) = .resp r) (hok : r.ok = false)
    (hhook : openaiOnFail token cfg (handleApiError r.status r.bodyText r.bodyJson) = some rq) :
    runOpenai w token meta cfg
      = ((runTemplateNR w token emptyMeta cfg rq).1,
         .request (openaiBuild token cfg) :: (runTemplateNR w token emptyMeta cfg rq).2) := by
  simp only [runOpenai, hfetch]
  rcases hE : runTemplateNR w token emptyMeta cfg rq with ⟨res, eff⟩
  simp [hok, hhook, hE]

/-- A non-2xx response that the onFail hook declines finalizes as invalid. -/
theorem runOpenai_fail_noretry (w : World) (token : String) (meta : ProviderMeta)
    (cfg : ProviderConfig) (r : HttpResp)
    (hfetch : w.fetch (openaiBuild token cfg) = .resp r) (hok : r.ok = false)
    (hhook : openaiOnFail token cfg (handleApiError r.status r.bodyText r.bodyJson) = none) :
    runOpenai w token meta cfg
      = (invalidResult token (handleApiError r.status r.bodyText r.bodyJson),
         [.request (openaiBuild token cfg)]) := by
  simp only [runOpenai, hfetch]
  simp [hok, hhook]

/-- A named, known checker that resolves merges its fields onto the base. -/
theorem balancePhase_ret (w : World) (token : String) (meta : ProviderMeta)
    (base : CheckResult) (eff : List Effect) (name : String) (f : BalanceFields)
    (hbc : meta.balanceCheck = some name) (hk : name ∈ knownCheckers)
    (hb : w.balance name = .ret f) :
    balancePhase w token meta base eff = (mergeBalance base f, eff ++ [.balanceFetch name]) := by
  unfold balancePhase
  rw [hbc]
  simp [hk, hb]

/-- Without a named checker the balance phase is the identity. -/
theorem balancePhase_none (w : World) (token : String) (meta : ProviderMeta)
    (base : CheckResult) (eff : List Effect) (hbc : meta.balanceCheck = none) :
    balancePhase w token meta base eff = (base, eff) := by
  unfold balancePhase
  rw [hbc]

/-- When the checker resolves, the merged result keeps isValid true and takes
the checker's balance and message fields. -/
theorem okBranch_ret_fields (w : World) (token : String) (meta : ProviderMeta)
    (cfg : ProviderConfig) (r : HttpResp) (name : String) (f : BalanceFields)
    (hstream : cfg.enableStream = true → r.streamFirstRead = .chunk)
    (hbc : meta.balanceCheck = some name) (hk : name ∈ knownCheckers)
    (hb : w.balance name = .ret f) :
    (okBranch w token meta cfg r).1.isValid = true
    ∧ (okBranch w token meta cfg r).1.balance = some f.balance
    ∧ (okBranch w token meta cfg r).1.message = f.message := by
  unfold okBranch
  cases hs : cfg.enableStream
  · simp only [hs, Bool.false_eq_true, if_false]
    rw [balancePhase_ret w token meta _ _ name f hbc hk hb]
    cases hm : f.message <;> simp [mergeBalance, hm, Option.orElse]
  · simp only [hs, if_true, hstream hs]
    rw [balancePhase_ret w token meta _ _ name f hbc hk hb]
    cases hm : f.message <;> simp [mergeBalance, hm, Option.orElse]

/-- Claim C2 (amended): a balance checker that resolves never downgrades an
otherwise-valid credential: for every 2xx validation (with a live first chunk
when streaming), when the provider's checker resolves with fields f the
result keeps isValid true, and when it resolves with the
BALANCE_UNAVAILABLE default the result only gains balance -1 and the
valid-but-balance-unavailable message; the checkers themselves resolve with
that default on a non-2xx balance response (shown for checkMoonshotBalance);
but a balance fetch that throws is caught by the template's outer catch-all
and does downgrade the result (see the counterexample theorem). -/
theorem checkToken_balance_failure_keeps_valid :
    (∀ body : JsonVal, checkMoonshotBalance (.resp false body) = .ret BALANCE_UNAVAILABLE)
    ∧ (∀ (w : World) (token : String) (meta : ProviderMeta) (cfg : ProviderConfig)
        (req : Request) (r : HttpResp) (name : String) (f : BalanceFields),
        w.fetch req = .resp r → r.ok = true →
        (cfg.enableStream = true → r.streamFirstRead = .chunk) →
        meta.balanceCheck = some name → name ∈ knownCheckers →
        w.balance name = .ret f →
        ((runTemplateNR w token meta cfg req).1.isValid = true
         ∧ (f = BALANCE_UNAVAILABLE →
             (runTemplateNR w token meta cfg req).1.balance = some (-1)
             ∧ (runTemplateNR w token meta cfg req).1.message = some "有效但无法获取余额")
         ∧ (meta.apiStyle = "openai" → req = openaiBuild token cfg →
             checkToken w token meta cfg = runTemplateNR w token meta cfg req))) := by
  constructor
  · intro body
    simp [checkMoonshotBalance]
  · intro w token meta cfg req r name f hfetch hok hstream hbc hk hb
    have hNR := runTemplateNR_ok w token meta cfg req r hfetch hok
    have hFields := okBranch_ret_fields w token meta cfg r name f hstream hbc hk hb
    refine ⟨?_, ?_, ?_⟩
    · rw [hNR]
      exact hFields.1
    · intro hf
      subst hf
      rw [hNR]
      exact ⟨hFields.2.1, hFields.2.2⟩
    · intro hstyle hreq
      subst hreq
      have hOA := runOpenai_ok w token meta cfg r hfetch hok
      simp only [checkToken, hstyle, if_pos]
      rw [hOA, hNR]

/-- The 2xx response used by the C2 witness. -/
def c2wResp : HttpResp :=
  { ok := true, status := 200, bodyText := "", bodyJson := some (.obj []),
    streamFirstRead := .chunk }

/-- A world whose balance checker resolves with the unavailable default. -/
def c2wWorld : World :=
  { fetch := fun _ => .resp c2wResp, balance := fun _ => .ret BALANCE_UNAVAILABLE }

/-- A balance-capable provider using the moonshot checker. -/
def c2wMeta : ProviderMeta :=
  { apiStyle := "openai", balanceCheck := some "checkMoonshotBalance", hasBalance := true }

/-- A plain non-streaming configuration. -/
def c2wCfg : ProviderConfig :=
  { provider := "moonshot", baseUrl := "https://api.moonshot.cn/v1", model := "m",
    enableStream := false, region := "", validationPrompt := "",
    validationMaxTokens := some 1, validationMaxOutputTokens := some 16 }

/-- Witness for C2: with a 2xx validation and a checker resolving with the
default, the result is valid with balance -1 and the default message. -/
theorem checkToken_balance_failure_keeps_valid_witness :
    (runTemplateNR c2wWorld "sk-w" c2wMeta c2wCfg (openaiBuild "sk-w" c2wCfg)).1.isValid = true
    ∧ (runTemplateNR c2wWorld "sk-w" c2wMeta c2wCfg (openaiBuild "sk-w" c2wCfg)).1.balance = some (-1)
    ∧ (runTemplateNR c2wWorld "sk-w" c2wMeta c2wCfg (openaiBuild "sk-w" c2wCfg)).1.message
        = some "有效但无法获取余额" := by
  have h := checkToken_balance_failure_keeps_valid.2 c2wWorld "sk-w" c2wMeta c2wCfg
    (openaiBuild "sk-w" c2wCfg) c2wResp "checkMoonshotBalance" BALANCE_UNAVAILABLE
    rfl rfl (by decide) rfl (by decide) rfl
  exact ⟨h.1, (h.2.1 rfl).1, (h.2.1 rfl).2⟩

/-- The 2xx response used by the C2 counterexample. -/
def c2xResp : HttpResp :=
  { ok := true, status := 200, bodyText := "", bodyJson := some (.obj []),
    streamFirstRead := .chunk }

/-- A world whose balance fetch rejects (network failure during the balance
request). -/
def c2xWorld : World :=
  { fetch := fun _ => .resp c2xResp, balance := fun _ => .throwsEx }

/-- Counterexample to C2 as stated: the validation request returns 2xx, yet a
balance-check failure by thrown exception turns the result into isValid
false with the network-error message, because the catch-all in
_checkTokenTemplate wraps the balance fetch too. -/
theorem checkToken_balance_throw_downgrades :
    c2xResp.ok = true
    ∧ (checkToken c2xWorld "sk-x" c2wMeta c2wCfg).1.isValid = false
    ∧ (checkToken c2xWorld "sk-x" c2wMeta c2wCfg).1.message = some "网络错误或未知异常" := by
  refine ⟨rfl, ?_, ?_⟩ <;> decide

/-- The three outcomes of the streaming probe inside the ok branch. -/
theorem okBranch_stream_case (w : World) (token : String) (meta : ProviderMeta)
    (cfg : ProviderConfig) (r : HttpResp) (hs : cfg.enableStream = true) :
    (r.streamFirstRead = .closed →
        okBranch w token meta cfg r = (streamEndedResult token, streamEffects))
    ∧ (r.streamFirstRead = .throwsEx →
        okBranch w token meta cfg r = (netErrResult token, streamEffects))
    ∧ (r.streamFirstRead = .chunk →
        okBranch w token meta cfg r
          = balancePhase w token meta
              { token := token, isValid := true, message := none, error := false,
                balance := none, currency := none, rawError := none,
                rawResponse := some (.note "Validation successful via streaming.") }
              streamEffects) := by
  refine ⟨?_, ?_, ?_⟩ <;> intro hr <;> simp only [okBranch, hs, if_true, hr]

/-- Claim C5 (amended): for every streaming validation whose response is 2xx:
a first read that reports done yields the invalid stream-ended-prematurely
result; a first read that throws yields the network-error result; a first
read that yields a chunk gives isValid true — outright when the provider has
no balance checker, and also whenever the checker resolves — while a balance
fetch that throws is converted by the outer catch-all into the network-error
invalid result (see the counterexample theorem); and on every one of these
paths the trace is exactly one stream read followed by the cancel and the
release of the reader. -/
theorem streaming_first_read_validation :
    ∀ (w : World) (token : String) (meta : ProviderMeta) (cfg : ProviderConfig)
      (req : Request) (r : HttpResp),
      w.fetch req = .resp r → r.ok = true → cfg.enableStream = true →
      ((r.streamFirstRead = .closed →
          runTemplateNR w token meta cfg req
            = (streamEndedResult token, .request req :: streamEffects))
       ∧ (r.streamFirstRead = .throwsEx →
          runTemplateNR w token meta cfg req
            = (netErrResult token, .request req :: streamEffects))
       ∧ (r.streamFirstRead = .chunk → meta.balanceCheck = none →
          runTemplateNR w token meta cfg req
            = ({ token := token, isValid := true, message := none, error := false,
                 balance := none, currency := none, rawError := none,
                 rawResponse := some (.note "Validation successful via streaming.") },
               .request req :: streamEffects))
       ∧ (∀ name f, r.streamFirstRead = .chunk → meta.balanceCheck = some name →
            name ∈ knownCheckers → w.balance name = .ret f →
            (runTemplateNR w token meta cfg req).1.isValid = true
            ∧ (runTemplateNR w token meta cfg req).2
                = .request req :: (streamEffects ++ [.balanceFetch name]))
       ∧ (∀ name, r.streamFirstRead = .chunk → meta.balanceCheck = some name →
            name ∈ knownCheckers → w.balance name = .throwsEx →
            runTemplateNR w token meta cfg req
              = (netErrResult token, .request req :: (streamEffects ++ [.balanceFetch name])))) := by
  intro w token meta cfg req r hfetch hok hs
  have hNR := runTemplateNR_ok w token meta cfg req r hfetch hok
  have hCase := okBranch_stream_case w token meta cfg r hs
  refine ⟨?_, ?_, ?_, ?_, ?_⟩
  · intro hr
    rw [hNR, hCase.1 hr]
  · intro hr
    rw [hNR, hCase.2.1 hr]
  · intro hr hbc
    rw [hNR, hCase.2.2 hr, balancePhase_none w token meta _ _ hbc]
  · intro name f hr hbc hk hb
    rw [hNR, hCase.2.2 hr, balancePhase_ret w token meta _ _ name f hbc hk hb]
    exact ⟨rfl, rfl⟩
  · intro name hr hbc hk hb
    rw [hNR, hCase.2.2 hr]
    unfold balancePhase
    rw [hbc]
    simp [hk, hb]

/-- A 2xx response whose stream closes before yielding data. -/
def c5Resp : HttpResp :=
  { ok := true, status := 200, bodyText := "", bodyJson := none,
    streamFirstRead := .closed }

/-- A 2xx response whose stream yields a first chunk. -/
def c5RespChunk : HttpResp :=
  { ok := true, status := 200, bodyText := "", bodyJson := none,
    streamFirstRead := .chunk }

/-- A world for the C5 witness: empty stream. -/
def c5World : World :=
  { fetch := fun _ => .resp c5Resp, balance := fun _ => .ret BALANCE_UNAVAILABLE }

/-- A provider without balance support. -/
def c5Meta : ProviderMeta :=
  { apiStyle := "openai", balanceCheck := none, hasBalance := false }

/-- A streaming configuration. -/
def c5Cfg : ProviderConfig :=
  { provider := "openai", baseUrl := "https://api.openai.com/v1", model := "gpt",
    enableStream := true, region := "", validationPrompt := "",
    validationMaxTokens := some 1, validationMaxOutputTokens := some 16 }

/-- Witness for C5: a zero-byte stream yields the stream-ended invalid result
and the reader is read once, cancelled and released. -/
theorem streaming_first_read_validation_witness :
    runTemplateNR c5World "sk-5" c5Meta c5Cfg (openaiBuild "sk-5" c5Cfg)
      = (streamEndedResult "sk-5",
         .request (openaiBuild "sk-5" c5Cfg) :: streamEffects) :=
  (streaming_first_read_validation c5World "sk-5" c5Meta c5Cfg
    (openaiBuild "sk-5" c5Cfg) c5Resp rfl rfl rfl).1 rfl

/-- A world for the C5 counterexample: the stream yields a chunk but the
balance fetch rejects. -/
def c5xWorld : World :=
  { fetch := fun _ => .resp c5RespChunk, balance := fun _ => .throwsEx }

/-- A balance-capable provider for the C5 counterexample. -/
def c5xMeta : ProviderMeta :=
  { apiStyle := "openai", balanceCheck := some "checkMoonshotBalance", hasBalance := true }

/-- Counterexample to C5 as stated: the response is 2xx, streaming is on and
the first read yields a chunk; still the result is isValid false, because the
provider's balance fetch throws afterwards and the catch-all rewrites the
result. -/
theorem streaming_chunk_balance_throw_invalid :
    c5RespChunk.ok = true
    ∧ c5RespChunk.streamFirstRead = .chunk
    ∧ c5Cfg.enableStream = true
    ∧ (checkToken c5xWorld "sk-5x" c5xMeta c5Cfg).1.isValid = false
    ∧ (checkToken c5xWorld "sk-5x" c5xMeta c5Cfg).1.message = some "网络错误或未知异常" := by
  refine ⟨rfl, rfl, rfl, ?_, ?_⟩ <;> decide

/-- Claim C3: for every style-A (openai) validation whose non-2xx error body
carries error.code unsupported_parameter and error.param max_tokens, the
onFail hook performs exactly one retry whose request drops max_tokens and
substitutes max_completion_tokens (validationMaxOutputTokens or 16), keeping
url, model, prompt and stream; the run issues exactly the two requests no
matter how the retried request fares (the retry strategy has no onFail, so a
second retry is impossible); and for every other error payload the hook
produces no retry and exactly one request is issued. -/
theorem openai_unsupported_param_single_retry :
    ∀ (w : World) (token : String) (meta : ProviderMeta) (cfg : ProviderConfig) (r : HttpResp),
      meta.apiStyle = "openai" →
      w.fetch (openaiBuild token cfg) = .resp r → r.ok = false →
      ((∀ rq, openaiOnFail token cfg (handleApiError r.status r.bodyText r.bodyJson) = some rq →
          requestsOf (checkToken w token meta cfg).2 = [openaiBuild token cfg, rq]
          ∧ rq.body.maxTokens = none
          ∧ rq.body.maxCompletionTokens = some (jsOrNat cfg.validationMaxOutputTokens 16)
          ∧ rq.url = (openaiBuild token cfg).url
          ∧ rq.body.model = (openaiBuild token cfg).body.model
          ∧ rq.body.prompt = (openaiBuild token cfg).body.prompt
          ∧ rq.body.stream = (openaiBuild token cfg).body.stream
          ∧ (checkToken w token meta cfg).1 = (runTemplateNR w token emptyMeta cfg rq).1)
       ∧ (openaiOnFail token cfg (handleApiError r.status r.bodyText r.bodyJson) = none →
           checkToken w token meta cfg
             = (invalidResult token (handleApiError r.status r.bodyText r.bodyJson),
                [.request (openaiBuild token cfg)]))
       ∧ (∀ e : ApiError,
            (openaiOnFail token cfg e).isSome
              = (isStrEq ((rcField e.content "error").bind (jfield · "code")) "unsupported_parameter"
                 && isStrEq ((rcField e.content "error").bind (jfield · "param")) "max_tokens"))) := by
  intro w token meta cfg r hstyle hfetch hok
  have hCT : checkToken w token meta cfg = runOpenai w token meta cfg := by
    simp only [checkToken, hstyle, if_pos]
  refine ⟨?_, ?_, ?_⟩
  · intro rq hhook
    have hrun := runOpenai_fail_retry w token meta cfg r rq hfetch hok hhook
    have hrq : rq.body.maxTokens = none
        ∧ rq.body.maxCompletionTokens = some (jsOrNat cfg.validationMaxOutputTokens 16)
        ∧ rq.url = (openaiBuild token cfg).url
        ∧ rq.body.model = (openaiBuild token cfg).body.model
        ∧ rq.body.prompt = (openaiBuild token cfg).body.prompt
        ∧ rq.body.stream = (openaiBuild token cfg).body.stream := by
      unfold openaiOnFail at hhook
      by_cases hcond :
          (isStrEq ((rcField (handleApiError r.status r.bodyText r.bodyJson).content "error").bind
              (jfield · "code")) "unsupported_parameter"
           && isStrEq ((rcField (handleApiError r.status r.bodyText r.bodyJson).content "error").bind
              (jfield · "param")) "max_tokens") = true
      · rw [if_pos hcond] at hhook
        have := Option.some.inj hhook
        rw [← this]
        exact ⟨rfl, rfl, rfl, rfl, rfl, rfl⟩
      · rw [if_neg hcond] at hhook
        exact absurd hhook (by simp)
    refine ⟨?_, hrq.1, hrq.2.1, hrq.2.2.1, hrq.2.2.2.1, hrq.2.2.2.2.1, hrq.2.2.2.2.2, ?_⟩
    · rw [hCT, hrun]
      simp only [requestsOf]
      rw [requestsOf_runTemplateNR]
    · rw [hCT, hrun]
  · intro hhook
    rw [hCT, runOpenai_fail_noretry w token meta cfg r hfetch hok hhook]
  · intro e
    unfold openaiOnFail
    by_cases hcond :
        (isStrEq ((rcField e.content "error").bind (jfield · "code")) "unsupported_parameter"
         && isStrEq ((rcField e.content "error").bind (jfield · "param")) "max_tokens") = true
    · rw [if_pos hcond, hcond]
      rfl
    · have hf :
          (isStrEq ((rcField e.content "error").bind (jfield · "code")) "unsupported_parameter"
           && isStrEq ((rcField e.content "error").bind (jfield · "param")) "max_tokens") = false := by
        cases h2 :
            (isStrEq ((rcField e.content "error").bind (jfield · "code")) "unsupported_parameter"
             && isStrEq ((rcField e.content "error").bind (jfield · "param")) "max_tokens")
        · rfl
        · exact absurd h2 hcond
      rw [if_neg hcond, hf]
      rfl

/-- The retry-triggering error body of the C3 witness. -/
def c3ErrBody : JsonVal :=
  .obj [("error", .obj [("code", .str "unsupported_parameter"),
                        ("param", .str "max_tokens")])]

/-- The non-2xx response carrying that body. -/
def c3ErrResp : HttpResp :=
  { ok := false, status := 400, bodyText := "unsupported", bodyJson := some c3ErrBody,
    streamFirstRead := .closed }

/-- The 2xx response the retried request receives. -/
def c3OkResp : HttpResp :=
  { ok := true, status := 200, bodyText := "", bodyJson := some (.obj []),
    streamFirstRead := .chunk }

/-- A world that rejects the original request (which still carries max_tokens)
and accepts the rewritten one. -/
def c3World : World :=
  { fetch := fun q => if q.body.maxTokens.isSome then .resp c3ErrResp else .resp c3OkResp,
    balance := fun _ => .ret BALANCE_UNAVAILABLE }

/-- A provider without balance support for the C3 witness. -/
def c3Meta : ProviderMeta :=
  { apiStyle := "openai", balanceCheck := none, hasBalance := false }

/-- The C3 witness configuration. -/
def c3Cfg : ProviderConfig :=
  { provider := "openai", baseUrl := "https://api.openai.com/v1", model := "gpt",
    enableStream := false, region := "", validationPrompt := "",
    validationMaxTokens := some 1, validationMaxOutputTokens := some 16 }

/-- The rewritten retry request the hook produces there. -/
def c3Retry : Request :=
  { url := "https://api.openai.com/v1/chat/completions",
    authBearer := some "sk-3", apiKeyHeader := none,
    body := { model := "gpt", prompt := "Hi", maxTokens := none,
              maxCompletionTokens := some 16, maxOutputTokens := none, stream := false } }

/-- Witness for C3: on the unsupported-parameter error exactly the original
and the rewritten request are issued, and the outcome is the retried run's. -/
theorem openai_unsupported_param_single_retry_witness :
    requestsOf (checkToken c3World "sk-3" c3Meta c3Cfg).2 = [openaiBuild "sk-3" c3Cfg, c3Retry]
    ∧ c3Retry.body.maxTokens = none
    ∧ c3Retry.body.maxCompletionTokens = some 16
    ∧ (checkToken c3World "sk-3" c3Meta c3Cfg).1
        = (runTemplateNR c3World "sk-3" emptyMeta c3Cfg c3Retry).1 := by
  have h := (openai_unsupported_param_single_retry c3World "sk-3" c3Meta c3Cfg c3ErrResp
    rfl rfl rfl).1 c3Retry (by decide)
  exact ⟨h.1, h.2.1, by decide, h.2.2.2.2.2.2.2⟩

/-- The first raw token always survives deduplication. -/
theorem dedup_keep_ne_nil (raw : List String) (h : raw ≠ []) :
    (dedupKeys raw).1 ≠ [] := by
  cases raw with
  | nil => exact absurd rfl h
  | cons t ts =>
    unfold dedupKeys enumFrom dedupScan
    simp

/-- Claim C9: startCheck rejects a raw list longer than the 50,000 ceiling
before any batch is formed and before any network access: on rejection the
run does not start (isChecking keeps its prior value, so an idle false stays
false), no job queue is created, and no session is opened; a list of at most
the ceiling (and nonempty) is accepted, the run starts and exactly one
session is opened for the first batch. -/
theorem startCheck_key_ceiling :
    ∀ (raw : List String) (s : OrchState),
      (MAX_KEYS_LIMIT < raw.length →
        (startCheckRaw raw s).isChecking = s.isChecking
        ∧ (startCheckRaw raw s).jobQueue = none
        ∧ (startCheckRaw raw s).sessions = s.sessions
        ∧ (startCheckRaw raw s).currentBatch = s.currentBatch
        ∧ (startCheckRaw raw s).pendingDispatch = s.pendingDispatch)
      ∧ (raw ≠ [] → raw.length ≤ MAX_KEYS_LIMIT →
        (startCheckRaw raw s).isChecking = true
        ∧ (startCheckRaw raw s).sessions.length = s.sessions.length + 1) := by
  intro raw s
  constructor
  · intro hover
    simp [startCheckRaw, if_pos hover]
  · intro hne hle
    have hnotover : ¬ MAX_KEYS_LIMIT < raw.length := not_lt.mpr hle
    have hkeep := dedup_keep_ne_nil raw hne
    simp only [startCheckRaw, if_neg hnotover]
    rcases hkd : dedupKeys raw with ⟨keep, dups⟩
    rw [hkd] at hkeep
    have hkeepE : keep.isEmpty = false := by
      cases keep with
      | nil => exact absurd rfl hkeep
      | cons a l => rfl
    simp only [hkeepE, Bool.false_eq_true, if_false]
    cases hdups : dups.isEmpty <;>
      simp [processNextBatch, hkeepE, connectSession]

/-- Witness for C9: a 50,001-key list is rejected idle with no queue and no
session; a 50,000-key list is accepted and the run starts. -/
theorem startCheck_key_ceiling_witness :
    (startCheckRaw ((List.range 50001).map (fun i => toString i)) initOrch).jobQueue = none
    ∧ (startCheckRaw ((List.range 50001).map (fun i => toString i)) initOrch).isChecking = false
    ∧ (startCheckRaw ((List.range 50001).map (fun i => toString i)) initOrch).sessions = []
    ∧ (startCheckRaw ((List.range 50000).map (fun i => toString i)) initOrch).isChecking = true := by
  have h1 := (startCheck_key_ceiling ((List.range 50001).map (fun i => toString i)) initOrch).1
    (by simp [MAX_KEYS_LIMIT])
  have h2 := (startCheck_key_ceiling ((List.range 50000).map (fun i => toString i)) initOrch).2
    (by simp) (by simp [MAX_KEYS_LIMIT])
  refine ⟨h1.2.1, ?_, ?_, h2.1⟩
  · rw [h1.1]
    rfl
  · rw [h1.2.2.1]
    rfl

theorem alive_pos_of_getD (l : List Bool) (w : Nat) (h : l.getD w false = true) :
    0 < l.count true := by
  rw [List.getD_eq_getD_get?] at h
  have hmem : true ∈ l := by
    cases hg : l.get? w with
    | none => rw [hg] at h; exact absurd h (by simp)
    | some b =>
      rw [hg] at h
      simp at h
      rw [h] at hg
      exact List.get?_mem hg
  exact List.count_pos_iff.mpr hmem

def InvPool (q : List KeyObj) (s : PoolState) : Prop :=
  s.queue = q
  ∧ s.claims.map Prod.snd = List.range s.currentIndex
  ∧ s.sent = s.queue.take s.currentIndex
  ∧ s.currentIndex ≤ s.queue.length
  ∧ (0 < aliveCount s → s.doneCount = 0)

theorem invPool_step (q : List KeyObj) (s : PoolState) (e : PEvent)
    (h : InvPool q s) : InvPool q (stepP s e) := by
  obtain ⟨hq, hcl, hsent, hle, hdone⟩ := h
  cases e with
  | claim w =>
    by_cases hg : (s.alive.getD w false && !s.isStopped
        && decide (s.currentIndex < s.queue.length)) = true
    · have hg' := hg
      simp only [Bool.and_eq_true, decide_eq_true_eq] at hg'
      have hlt : s.currentIndex < s.queue.length := hg'.2
      simp only [stepP, if_pos hg]
      refine ⟨hq, ?_, ?_, ?_, ?_⟩
      · simp [hcl, List.range_succ]
      · show s.sent ++ (s.queue.get? s.currentIndex).toList
            = s.queue.take (s.currentIndex + 1)
        rw [hsent, List.take_succ, List.get?_eq_getElem?]
      · show s.currentIndex + 1 ≤ s.queue.length
        omega
      · intro hpos
        exact hdone hpos
    · simp only [stepP, if_neg hg]
      exact ⟨hq, hcl, hsent, hle, hdone⟩
  | exitW w =>
    by_cases hg : (s.alive.getD w false
        && (s.isStopped || decide (¬ s.currentIndex < s.queue.length))) = true
    · have hga : s.alive.getD w false = true := by
        simp only [Bool.and_eq_true] at hg
        exact hg.1
      simp only [stepP, if_pos hg]
      by_cases hz : (decide (aliveCount { s with alive := s.alive.set w false } = 0)
          && !s.isStopped) = true
      · simp only [if_pos hz]
        have hz' : aliveCount { s with alive := s.alive.set w false } = 0 := by
          simp only [Bool.and_eq_true, decide_eq_true_eq] at hz
          exact hz.1
        refine ⟨hq, hcl, hsent, hle, ?_⟩
        intro hpos
        have hpos' : 0 < aliveCount { s with alive := s.alive.set w false } := hpos
        omega
      · simp only [if_neg hz]
        refine ⟨hq, hcl, hsent, hle, ?_⟩
        intro _
        exact hdone (alive_pos_of_getD s.alive w hga)
    · simp only [stepP, if_neg hg]
      exact ⟨hq, hcl, hsent, hle, hdone⟩
  | stop =>
    exact ⟨hq, hcl, hsent, hle, hdone⟩

theorem invPool_run (q : List KeyObj) (s : PoolState) (tr : List PEvent)
    (h : InvPool q s) : InvPool q (runP s tr) := by
  induction tr generalizing s with
  | nil => exact h
  | cons e rest ih => exact ih (stepP s e) (invPool_step q s e h)

theorem invPool_init (q : List KeyObj) (N : Nat) : InvPool q (initPool q N) := by
  exact ⟨rfl, rfl, rfl, by simp [initPool], fun _ => rfl⟩

def InvDone (s : PoolState) : Prop :=
  s.isStopped = false
  ∧ (0 < aliveCount s → s.doneCount = 0)
  ∧ (aliveCount s = 0 → s.doneCount = 1)

theorem invDone_step (s : PoolState) (e : PEvent) (hne : e ≠ PEvent.stop)
    (h : InvDone s) : InvDone (stepP s e) := by
  obtain ⟨hstop, hpos0, hzero1⟩ := h
  cases e with
  | claim w =>
    by_cases hg : (s.alive.getD w false && !s.isStopped
        && decide (s.currentIndex < s.queue.length)) = true
    · simp only [stepP, if_pos hg]
      exact ⟨hstop, hpos0, hzero1⟩
    · simp only [stepP, if_neg hg]
      exact ⟨hstop, hpos0, hzero1⟩
  | exitW w =>
    by_cases hg : (s.alive.getD w false
        && (s.isStopped || decide (¬ s.currentIndex < s.queue.length))) = true
    · have hga : s.alive.getD w false = true := by
        simp only [Bool.and_eq_true] at hg
        exact hg.1
      have hdone0 : s.doneCount = 0 := hpos0 (alive_pos_of_getD s.alive w hga)
      simp only [stepP, if_pos hg]
      by_cases hz : (decide (aliveCount { s with alive := s.alive.set w false } = 0)
          && !s.isStopped) = true
      · have hz0 : aliveCount { s with alive := s.alive.set w false } = 0 := by
          simp only [Bool.and_eq_true, decide_eq_true_eq] at hz
          exact hz.1
        simp only [if_pos hz]
        refine ⟨hstop, ?_, ?_⟩
        · intro hpos
          have hpos' : 0 < aliveCount { s with alive := s.alive.set w false } := hpos
          omega
        · intro _
          rw [hdone0]
      · have hz0 : ¬ aliveCount { s with alive := s.alive.set w false } = 0 := by
          intro h0
          apply hz
          rw [hstop]
          simp
          exact h0
        simp only [if_neg hz]
        refine ⟨hstop, ?_, ?_⟩
        · intro _
          exact hdone0
        · intro h0
          exact absurd h0 hz0
    · simp only [stepP, if_neg hg]
      exact ⟨hstop, hpos0, hzero1⟩
  | stop => exact absurd rfl hne

theorem invDone_run (s : PoolState) (tr : List PEvent)
    (hnostop : PEvent.stop ∉ tr) (h : InvDone s) : InvDone (runP s tr) := by
  induction tr generalizing s with
  | nil => exact h
  | cons e rest ih =>
    have hne : e ≠ PEvent.stop := by
      intro he
      exact hnostop (he ▸ List.mem_cons_self e rest)
    have hrest : PEvent.stop ∉ rest := fun hm => hnostop (List.mem_cons_of_mem e hm)
    exact ih (stepP s e) hrest (invDone_step s e hne h)

theorem stepP_frozen (s : PoolState) (e : PEvent) (hstop : s.isStopped = true) :
    (stepP s e).doneCount = s.doneCount ∧ (stepP s e).isStopped = true := by
  cases e with
  | claim w =>
    have hg : (s.alive.getD w false && !s.isStopped
        && decide (s.currentIndex < s.queue.length)) = false := by
      rw [hstop]
      simp
    simp only [stepP, hg, Bool.false_eq_true, if_false]
    simp [hstop]
  | exitW w =>
    by_cases hg : (s.alive.getD w false
        && (s.isStopped || decide (¬ s.currentIndex < s.queue.length))) = true
    · have hzc : ¬ ((decide (aliveCount { s with alive := s.alive.set w false } = 0)
          && !s.isStopped) = true) := by
        rw [hstop]
        simp
      simp only [stepP, if_pos hg, if_neg hzc]
      simp [hstop]
    · simp only [stepP, if_neg hg]
      simp [hstop]
  | stop => exact ⟨rfl, rfl⟩

theorem runP_frozen (s : PoolState) (tr : List PEvent) (hstop : s.isStopped = true) :
    (runP s tr).doneCount = s.doneCount ∧ (runP s tr).isStopped = true := by
  induction tr generalizing s with
  | nil => exact ⟨rfl, hstop⟩
  | cons e rest ih =>
    have h1 := stepP_frozen s e hstop
    have h2 := ih (stepP s e) h1.2
    exact ⟨h2.1.trans h1.1, h2.2⟩

theorem runP_append (s : PoolState) (a b : List PEvent) :
    runP s (a ++ b) = runP (runP s a) b := by
  induction a generalizing s with
  | nil => rfl
  | cons e rest ih => exact ih (stepP s e)

/-- Claim C8: for every batch run by the worker pool, items are claimed via
the shared index cursor so each queue item is claimed at most once (the
claimed indices are exactly the range below the cursor, hence pairwise
distinct, and the sent results are exactly the claimed prefix of the queue);
if the workers all exit without a stop event, exactly one batch-done signal
is emitted; and a stop that arrives while some worker is still running
suppresses the done signal for good. -/
theorem workerPool_done_signal :
    ∀ (q : List KeyObj) (N : Nat) (tr : List PEvent),
      (((runP (initPool q N) tr).claims.map Prod.snd
          = List.range (runP (initPool q N) tr).currentIndex)
        ∧ ((runP (initPool q N) tr).claims.map Prod.snd).Nodup
        ∧ (runP (initPool q N) tr).sent = q.take (runP (initPool q N) tr).currentIndex)
      ∧ (0 < N → PEvent.stop ∉ tr → aliveCount (runP (initPool q N) tr) = 0 →
          (runP (initPool q N) tr).doneCount = 1)
      ∧ (∀ t1 t2, tr = t1 ++ PEvent.stop :: t2 →
          0 < aliveCount (runP (initPool q N) t1) →
          (runP (initPool q N) tr).doneCount = 0) := by
  intro q N tr
  obtain ⟨hq, hcl, hsent, _, hdone⟩ := invPool_run q (initPool q N) tr (invPool_init q N)
  refine ⟨⟨hcl, ?_, ?_⟩, ?_, ?_⟩
  · rw [hcl]
    exact List.nodup_range _
  · rw [hsent, hq]
  · intro hN hnostop hdead
    have hinit : InvDone (initPool q N) := by
      refine ⟨rfl, fun _ => rfl, fun h0 => ?_⟩
      have : aliveCount (initPool q N) = N := by
        simp [aliveCount, initPool]
      omega
    exact (invDone_run (initPool q N) tr hnostop hinit).2.2 hdead
  · intro t1 t2 htr halive
    obtain ⟨hq1, hcl1, hsent1, hle1, hdone1⟩ :=
      invPool_run q (initPool q N) t1 (invPool_init q N)
    have hmid0 : (runP (initPool q N) t1).doneCount = 0 := hdone1 halive
    rw [htr, runP_append]
    have hstopped : (stepP (runP (initPool q N) t1) PEvent.stop).isStopped = true := rfl
    have hfrozen := runP_frozen (stepP (runP (initPool q N) t1) PEvent.stop) t2 hstopped
    show (runP (stepP (runP (initPool q N) t1) PEvent.stop) t2).doneCount = 0
    rw [hfrozen.1]
    show (runP (initPool q N) t1).doneCount = 0
    exact hmid0

/-- Witness for C8: one worker drains a two-item batch and fires done once
with distinct claims; with two workers, a stop after the first claim
suppresses the done signal. -/
theorem workerPool_done_signal_witness :
    (runP (initPool [⟨"a", 0⟩, ⟨"b", 1⟩] 1)
        [PEvent.claim 0, PEvent.claim 0, PEvent.exitW 0]).doneCount = 1
    ∧ ((runP (initPool [⟨"a", 0⟩, ⟨"b", 1⟩] 1)
        [PEvent.claim 0, PEvent.claim 0, PEvent.exitW 0]).claims.map Prod.snd).Nodup
    ∧ (runP (initPool [⟨"a", 0⟩, ⟨"b", 1⟩] 2)
        [PEvent.claim 0, PEvent.stop, PEvent.exitW 0, PEvent.exitW 1]).doneCount = 0 := by
  have h1 := (workerPool_done_signal [⟨"a", 0⟩, ⟨"b", 1⟩] 1
    [PEvent.claim 0, PEvent.claim 0, PEvent.exitW 0]).2.1 (by decide) (by decide) (by decide)
  have h2 := (workerPool_done_signal [⟨"a", 0⟩, ⟨"b", 1⟩] 1
    [PEvent.claim 0, PEvent.claim 0, PEvent.exitW 0]).1.2.1
  have h3 := (workerPool_done_signal [⟨"a", 0⟩, ⟨"b", 1⟩] 2
    [PEvent.claim 0, PEvent.stop, PEvent.exitW 0, PEvent.exitW 1]).2.2
    [PEvent.claim 0] [PEvent.exitW 0, PEvent.exitW 1] rfl (by decide)
  exact ⟨h1, h2, h3⟩

/-- Claim C4: while a run is checking and not paused, an abnormal session
close with fewer than 3 attempts used and a nonempty tracked batch schedules
reconnect attempt N with an N-second delay (the recorded backoff equals the
incremented counter); with the 3 attempts exhausted the handler posts a
fatal error and stops the run instead of scheduling a reconnect;
processNextBatch resets the counter when a new batch starts; a firing
reconnect timer reopens a session carrying exactly the tracked batch; and
each arriving result removes its key from the tracked batch, so a reconnect
resubmits only the credentials without a result. -/
theorem reconnect_linear_backoff_bound :
    ∀ (s : OrchState),
      (s.isChecking = true → s.isPaused = false →
        s.reconnectAttempts < MAX_RECONNECT_ATTEMPTS →
        ∀ cb, s.currentBatch = some cb → cb ≠ [] →
        oncloseBody s
          = { s with reconnectAttempts := s.reconnectAttempts + 1,
                     pendingReconnects := s.pendingReconnects ++ [s.reconnectAttempts + 1] })
      ∧ (s.isChecking = true → s.isPaused = false →
        s.reconnectAttempts = MAX_RECONNECT_ATTEMPTS →
        (oncloseBody s).fatalAborted = true
        ∧ (oncloseBody s).isChecking = false
        ∧ (oncloseBody s).pendingReconnects = s.pendingReconnects)
      ∧ (s.isPaused = false → (processNextBatch s).reconnectAttempts = 0)
      ∧ (∀ cb d rest, s.isChecking = true → s.isPaused = false →
          s.currentBatch = some cb → s.pendingReconnects = d :: rest →
          (stepO s .reconnectFire).sessions
            = s.sessions ++ [{ sid := s.nextSid, unsent := cb, srvStopped := false,
                               isOpen := true, handlerActive := true }]
          ∧ (stepO s .reconnectFire).socketId = some s.nextSid
          ∧ (stepO s .reconnectFire).currentBatch = some cb)
      ∧ (∀ sid t k, findSession s sid = some t → t.isOpen = true →
          t.srvStopped = false → t.unsent.contains k = true →
          (stepO s (.serverResult sid k)).currentBatch
            = s.currentBatch.map (fun cb => cb.filter (fun x => x.order != k.order))) := by
  intro s
  refine ⟨?_, ?_, ?_, ?_, ?_⟩
  · intro hchk hpause hlt cb hcb hne
    have hpos : 0 < cb.length := List.length_pos.mpr hne
    simp only [oncloseBody, hchk, hpause, hcb]
    simp [hlt, hpos]
  · intro hchk hpause hatt
    have hnlt : ¬ s.reconnectAttempts < MAX_RECONNECT_ATTEMPTS := by omega
    simp only [oncloseBody, hchk, hpause]
    simp only [hnlt]
    have hcond : (decide (s.reconnectAttempts < MAX_RECONNECT_ATTEMPTS)
        && (match s.currentBatch with
            | some cb => decide (0 < cb.length)
            | none => false)) = false := by
      simp [hnlt]
    simp only [Bool.true_and, Bool.not_false, hcond, Bool.false_eq_true, if_false]
    unfold stopCheck flushBuffer
    rcases hsock : s.socketId with _ | j <;>
      simp [hsock, closeSession, detachHandler, updSession]
  · intro hpause
    simp only [processNextBatch, hpause, Bool.false_eq_true, if_false]
    rcases hjq : s.jobQueue with _ | rem
    · simp [finishCheck, flushBuffer]
    · cases hre : rem.isEmpty <;> simp [finishCheck, flushBuffer, connectSession, hre]
  · intro cb d rest hchk hpause hcb hpr
    simp only [stepO, hpr, hchk, hpause]
    simp [hcb, connectSession]
  · intro sid t k hfind hopen hsrv hcont
    simp only [stepO, hfind, hopen, hsrv, hcont]
    simp only [Bool.not_false, Bool.and_true, Bool.true_and, if_true]
    by_cases hbl : BUFFER_MAX_SIZE ≤ s.buffer.length + 1 <;>
      simp [bufferAdd, updSession, hbl]

/-- A mid-run state with one closed session and a one-key tracked batch. -/
def c4State : OrchState :=
  { initOrch with
      isChecking := true,
      jobQueue := some [],
      currentBatch := some [⟨"a", 0⟩],
      sessions := [{ sid := 0, unsent := [⟨"a", 0⟩], srvStopped := true,
                     isOpen := false, handlerActive := true }],
      socketId := some 0, nextSid := 1 }

/-- Witness for C4: the first abnormal close schedules a 1-second reconnect
and sets the counter to 1, while a state with the 3 attempts used aborts the
run with a fatal error. -/
theorem reconnect_linear_backoff_bound_witness :
    (oncloseBody c4State).reconnectAttempts = 1
    ∧ (oncloseBody c4State).pendingReconnects = [1]
    ∧ (oncloseBody { c4State with reconnectAttempts := 3 }).fatalAborted = true
    ∧ (oncloseBody { c4State with reconnectAttempts := 3 }).isChecking = false := by
  have h1 := (reconnect_linear_backoff_bound c4State).1 rfl rfl (by decide) [⟨"a", 0⟩] rfl (by decide)
  have h2 := (reconnect_linear_backoff_bound { c4State with reconnectAttempts := 3 }).2.1 rfl rfl rfl
  refine ⟨?_, ?_, h2.1, h2.2.1⟩
  · rw [h1]
    decide
  · rw [h1]
    decide

/-- The event interleaving of the pause/resume reconnect race: the batch's
transport drops once, the user pauses and resumes within the backoff window,
the stale reconnect timer then opens a second session for the same keys, both
sessions deliver all three results, and the run finishes normally. -/
def c1Trace : List OEvent :=
  [.abnormalClose 0, .pause, .resume, .reconnectFire,
   .serverResult 1 ⟨"a", 0⟩, .serverResult 1 ⟨"b", 1⟩, .serverResult 1 ⟨"c", 2⟩,
   .serverResult 2 ⟨"a", 0⟩, .serverResult 2 ⟨"b", 1⟩, .serverResult 2 ⟨"c", 2⟩,
   .serverDone 1, .dispatchFire]

/-- Claim C1 (code bug): the conservation invariant fails on the code.  A run
over three distinct credentials that completes (finishCheck runs, finished is
true) without stopCheck ever being invoked stores six results — order 0 is
stored twice — and reports completedCount 6 over totalTasks 3, because the
reconnect timer scheduled by the abnormal close is never cancelled by pause
or resume, so after a pause/resume inside the backoff window it opens a
second session for the batch resume already resubmitted. -/
theorem orchestrator_pause_resume_race_duplicates :
    OEvent.stop ∉ c1Trace
    ∧ (runO (startCheckRaw ["a", "b", "c"] initOrch) c1Trace).finished = true
    ∧ (runO (startCheckRaw ["a", "b", "c"] initOrch) c1Trace).stored.length = 6
    ∧ (runO (startCheckRaw ["a", "b", "c"] initOrch) c1Trace).stored.count 0 = 2
    ∧ (runO (startCheckRaw ["a", "b", "c"] initOrch) c1Trace).completedCount = 6
    ∧ (runO (startCheckRaw ["a", "b", "c"] initOrch) c1Trace).totalTasks = 3
    ∧ (["a", "b", "c"] : List String).length = 3 := by
  refine ⟨by decide, ?_, ?_, ?_, ?_, ?_, rfl⟩ <;> decide
